import Mathlib

/-
Verification of the Bank of Maharashtra loan-assistant RAG pipeline
(src/rag_pipeline/chunk_and_embed.py, src/rag_pipeline/rag_engine.py,
src/app/main.py) against its natural-language specification.

Python strings are modelled as Lean `String` (operations restricted to the
ASCII behaviour the code relies on), machine floats as `ℚ`, fallible external
calls (file loads, embedding, FAISS search, generation, audit writes) as
`Option`-valued oracles, and raised exceptions as `Option.none` propagating to
the nearest try/except of the transcribed control flow.
-/

/-- ASCII whitespace, as recognised by Python `str.strip` and the regex
class used by the formatter (space, tab, newline, carriage return,
vertical tab, form feed). -/
def isPySpace (c : Char) : Bool :=
  c == ' ' || c == '\t' || c == '\n' || c == '\r' ||
  c == Char.ofNat 11 || c == Char.ofNat 12

/-- Python `str.strip()`: drop leading and trailing whitespace. -/
def pyStrip (s : String) : String :=
  String.mk (((s.data.dropWhile isPySpace).reverse.dropWhile isPySpace).reverse)

/-- Python `str.lower()` on the ASCII letters the code compares against. -/
def pyLower (s : String) : String :=
  String.mk (s.data.map (fun c =>
    if 'A' ≤ c ∧ c ≤ 'Z' then Char.ofNat (c.toNat + 32) else c))

/-- Number of occurrences of a character, Python `str.count` for a
single-character argument. -/
def countChar (c : Char) (s : String) : Nat :=
  (s.data.filter (fun d => d == c)).length

/-- Python `str.split(sep)` for a single-character separator: every piece is
kept, including empty ones. -/
def splitOnChar (sep : Char) : List Char → List (List Char)
  | [] => [[]]
  | c :: cs =>
    if c == sep then [] :: splitOnChar sep cs
    else
      match splitOnChar sep cs with
      | [] => [[c]]
      | piece :: rest => (c :: piece) :: rest

/-- Sentence-ending punctuation of the formatter regexes: period,
exclamation mark, question mark. -/
def isSentEnd (c : Char) : Bool :=
  c == '.' || c == '!' || c == '?'

/-- Worker for the sentence split: scans the text, and whenever a whitespace
run immediately follows a sentence-ending character, cuts there and removes
the whole whitespace run (the regex split on whitespace preceded by one of
`.`, `!`, `?`, with a greedy whitespace run). `inSep` records being inside
such a run, `prevEnd` whether the previous character ends a sentence, `acc`
the current piece reversed. -/
def sentSplitAux (inSep prevEnd : Bool) (acc : List Char) :
    List Char → List (List Char)
  | [] => [acc.reverse]
  | c :: cs =>
    if inSep then
      if isPySpace c then sentSplitAux true false acc cs
      else sentSplitAux false (isSentEnd c) (c :: acc) cs
    else if prevEnd && isPySpace c then
      acc.reverse :: sentSplitAux true false [] cs
    else
      sentSplitAux false (isSentEnd c) (c :: acc) cs

/-- Strip a leading enumeration marker: one or more digits followed by `.` or
`)` followed by optional whitespace (the substitution applied to each line
before it becomes a bullet). -/
def stripEnum (l : List Char) : List Char :=
  let ds := l.takeWhile Char.isDigit
  if ds.isEmpty then l
  else
    match l.drop ds.length with
    | c :: cs => if c == '.' || c == ')' then cs.dropWhile isPySpace else l
    | [] => l

/-- Strip every piece and keep the non-empty ones (the comprehension
the formatter applies to both kinds of split). -/
def nonEmptyStripped (ls : List String) : List String :=
  (ls.map pyStrip).filter (fun l => l != "")

/-- `format_answer_user_friendly` from src/rag_pipeline/rag_engine.py:
trim; return short answers (under 200 characters with fewer than 3 periods)
unchanged; otherwise split on newlines if present, else into sentences;
return unchanged if at most one line survives; otherwise emit a header and
one bullet per line with leading enumerations stripped. -/
def format_answer_user_friendly (answer0 : String) : String :=
  let answer := pyStrip answer0
  if answer.length < 200 ∧ countChar '.' answer < 3 then answer
  else
    let lines :=
      if answer.data.contains '\n' then
        nonEmptyStripped ((splitOnChar '\n' answer.data).map String.mk)
      else
        nonEmptyStripped ((sentSplitAux false false [] answer.data).map String.mk)
    if lines.length ≤ 1 then answer
    else
      pyStrip ("Here are the key points:\n" ++
        String.join (lines.map (fun l => "â€¢ " ++ String.mk (stripEnum l.data) ++ "\n")))

/-- The line-splitting stage as the spec words it: split on explicit line
breaks when the text contains any, else into sentences on sentence-ending
punctuation followed by whitespace; drop empty lines. -/
def splitIntoLines (t : String) : List String :=
  if t.data.contains '\n' then
    nonEmptyStripped ((splitOnChar '\n' t.data).map String.mk)
  else
    nonEmptyStripped ((sentSplitAux false false [] t.data).map String.mk)

/-- The bulleted re-emission stage as the spec words it: a header line, then
one bullet per line in original order, leading enumerations stripped. -/
def bulletList (lines : List String) : String :=
  pyStrip ("Here are the key points:\n" ++
    String.join (lines.map (fun l => "â€¢ " ++ String.mk (stripEnum l.data) ++ "\n")))

/-- Count of all sentence-ending punctuation marks in a string. -/
def countSentenceEnders (t : String) : Nat :=
  (t.data.filter isSentEnd).length

/-- The Answer Formatter policy exactly as the claim words it: the early
return triggers when the trimmed answer is under the character threshold and
contains fewer than three sentence-ending punctuation marks (of any kind). -/
def format_policy_claimed (raw : String) : String :=
  let t := pyStrip raw
  if t.length < 200 ∧ countSentenceEnders t < 3 then t
  else
    match splitIntoLines t with
    | [] => t
    | [_] => t
    | lines => bulletList lines

/-- The Answer Formatter policy as amended: the early return counts only
period characters, not exclamation or question marks. -/
def format_policy_amended (raw : String) : String :=
  let t := pyStrip raw
  if t.length < 200 ∧ countChar '.' t < 3 then t
  else
    match splitIntoLines t with
    | [] => t
    | [_] => t
    | lines => bulletList lines

/-- `sanitize_user_input` from src/rag_pipeline/rag_engine.py. -/
def sanitize_user_input (user_input : String) : String :=
  pyStrip user_input

/-- The fixed greeting vocabulary of `is_greeting`. -/
def greetings : List String :=
  ["hello", "hi", "hey", "good morning", "good afternoon", "good evening",
   "greetings", "namaste", "hola", "bonjour", "hii"]

/-- `is_greeting` from src/rag_pipeline/rag_engine.py: lower-case and trim the
input, then test whether it equals a vocabulary entry or starts with one
followed by a space. -/
def is_greeting (user_input : String) : Bool :=
  let u := pyStrip (pyLower user_input)
  greetings.any (fun g => u == g || (g ++ " ").data.isPrefixOf u.data)

/-- A persisted chunk-store record: a Python dict with string keys and string
values, modelled as an association list in insertion order. -/
abbrev Record := List (String × String)

/-- Python dict lookup on a record (first matching key). -/
def pyDictGet (r : Record) (k : String) : Option String :=
  (r.find? (fun p => p.1 == k)).map Prod.snd

/-- A source document, as loaded by `load_files`. -/
structure Doc where
  filename : String
  text : String
deriving DecidableEq

/-- The record literal built for each chunk inside `chunk_docs`, with its
keys in the insertion order of the source. -/
def chunkRecord (filename chunkText : String) (i : Nat) : Record :=
  [("chunk", chunkText), ("filename", filename),
   ("chunk_id", filename ++ "_chunk_" ++ toString i)]

/-- `chunk_docs` from src/rag_pipeline/chunk_and_embed.py, parameterised by
the text splitter (the external recursive character splitter): for each
document, enumerate its split chunks and build one record per chunk. -/
def chunk_docs (splitText : String → List String) (docs : List Doc) : List Record :=
  (docs.map (fun doc =>
    (splitText doc.text).enum.map (fun p => chunkRecord doc.filename p.2 p.1))).flatten

/-- `embed_chunks` from src/rag_pipeline/chunk_and_embed.py, parameterised by
the embedding service (`none` models a raised service error, which aborts
the whole build): one embedding per record, in record order, from the
record entry under the key `chunk`. -/
def embed_chunks (embed : String → Option (List ℚ)) (chunks : List Record) :
    Option (List (List ℚ)) :=
  chunks.mapM (fun c => (pyDictGet c "chunk").bind embed)

/-- The artifact pair a successful build persists: the vector index rows (in
append order) and the chunk-store records (in dump order). -/
structure BuildArtifacts where
  indexVectors : List (List ℚ)
  docstore : List Record
deriving DecidableEq

/-- The build pipeline of `main` in src/rag_pipeline/chunk_and_embed.py after
loading: chunk all documents, embed every chunk, append all vectors to a
fresh index and dump all records; `none` models an aborted build (an
embedding failure re-raised by the top-level handler, persisting nothing). -/
def buildArtifacts (splitText : String → List String)
    (embed : String → Option (List ℚ)) (docs : List Doc) : Option BuildArtifacts :=
  (embed_chunks embed (chunk_docs splitText docs)).map
    (fun embs => ⟨embs, chunk_docs splitText docs⟩)

/-- The persisted state of the two artifact files: `none` means the file is
absent, `some n` that it holds an artifact with `n` rows. -/
structure FS where
  indexFile : Option Nat
  storeFile : Option Nat
deriving DecidableEq

/-- The persistence step of `main` in src/rag_pipeline/chunk_and_embed.py
(lines 110 to 115): write the index file, then write the store file, with no
temporary paths, renames, or cleanup. A `false` flag models the
corresponding write raising; the exception is re-raised by the handler of
`main`, leaving every earlier write in place. Returns the resulting file
state and whether the step completed. -/
def persistArtifacts (indexWriteOk storeWriteOk : Bool) (n m : Nat) (fs : FS) :
    FS × Bool :=
  if indexWriteOk then
    let fs1 : FS := ⟨some n, fs.storeFile⟩
    if storeWriteOk then (⟨some n, some m⟩, true) else (fs1, false)
  else (fs, false)

/-- Squared Euclidean distance between two vectors. -/
def sqDist (u v : List ℚ) : ℚ :=
  ((u.zip v).map (fun p => (p.1 - p.2) ^ 2)).sum

/-- Each stored row paired with its index and its squared distance to the
query. -/
def distPairs (rows : List (List ℚ)) (q : List ℚ) : List (Nat × ℚ) :=
  rows.enum.map (fun p => (p.1, sqDist q p.2))

/-- The search ordering: smaller squared distance first, ties broken by the
row index (first-inserted wins). -/
def searchLE (a b : Nat × ℚ) : Prop :=
  a.2 < b.2 ∨ (a.2 = b.2 ∧ a.1 ≤ b.1)

instance searchLE_decidable : DecidableRel searchLE := fun a b => by
  unfold searchLE; infer_instance

instance searchLE_total : IsTotal (Nat × ℚ) searchLE := by
  constructor
  intro a b
  rcases lt_trichotomy a.2 b.2 with h | h | h
  · exact Or.inl (Or.inl h)
  · rcases Nat.le_total a.1 b.1 with h1 | h1
    · exact Or.inl (Or.inr ⟨h, h1⟩)
    · exact Or.inr (Or.inr ⟨h.symm, h1⟩)
  · exact Or.inr (Or.inl h)

instance searchLE_trans : IsTrans (Nat × ℚ) searchLE := by
  constructor
  intro a b c hab hbc
  rcases hab with h1 | ⟨h1, h1i⟩ <;> rcases hbc with h2 | ⟨h2, h2i⟩
  · exact Or.inl (lt_trans h1 h2)
  · exact Or.inl (h2 ▸ h1)
  · exact Or.inl (h1 ▸ h2)
  · exact Or.inr ⟨h1.trans h2, h1i.trans h2i⟩

/-- Modelled from the spec: the Vector Index operation
`search(query, k) -> ordered sequence of (row_index, distance)` of section
4.2, implemented in the repository by the external FAISS `IndexFlatL2`
(not under src/): rank all stored rows by squared Euclidean distance to the
query, ascending, ties broken by lower row index, and return the first `k`. -/
def search (rows : List (List ℚ)) (q : List ℚ) (k : Nat) : List (Nat × ℚ) :=
  (List.insertionSort searchLE (distPairs rows q)).take k

/-- Python list indexing `l[i]`: non-negative indices from the front,
negative indices from the back, `none` models a raised IndexError. -/
def pyListGet {α : Type} (l : List α) (i : Int) : Option α :=
  let j := if 0 ≤ i then i else (l.length : Int) + i
  if 0 ≤ j ∧ j < (l.length : Int) then l.get? j.toNat else none

/-- The retrieval comprehension of `query_rag` (line 134 of
src/rag_pipeline/rag_engine.py): keep the returned row indices `i` with
`i < len(chunks)` and index the chunk store with each; `none` models a
raised IndexError. -/
def retrieveRows {α : Type} (chunks : List α) (I : List Int) : Option (List α) :=
  (I.filter (fun i => decide (i < (chunks.length : Int)))).mapM (pyListGet chunks)

/-- The retrieval rule as the claim words it: map each returned row index to
the Chunk Store entry at that row, discarding every index outside the range
0 to len(chunk_store) - 1. -/
def specRetrieve {α : Type} (chunks : List α) (I : List Int) : List α :=
  (I.filter (fun i => decide (0 ≤ i ∧ i < (chunks.length : Int)))).filterMap
    (fun i => chunks.get? i.toNat)

/-- Python `sep.join(pieces)`. -/
def pyJoin (sep : String) : List String → String
  | [] => ""
  | [x] => x
  | x :: y :: rest => x ++ sep ++ pyJoin sep (y :: rest)

/-- An apostrophe character, for the fixed user-facing strings. -/
def apos : String := Char.toString (Char.ofNat 39)

/-- The external calls the query path can attempt, in order. -/
inductive Call
  | load
  | embed
  | search
  | generate
  | audit
deriving DecidableEq

/-- The outcomes of the external collaborators for one call of `query_rag`:
`none` models the corresponding call raising an exception. `searchRows`
yields the row-index list `I[0]` of the nearest-neighbour search for a given
top-k; `generate` yields the raw answer text for a given prompt; `auditOk`
tells whether the audit write succeeds (its failure is swallowed). -/
structure RagEnv where
  load : Option (List Record)
  embed : String → Option Unit
  searchRows : Nat → Option (List Int)
  generate : String → Option String
  auditOk : Bool

/-- The value `query_rag` returns: a bare answer string when `return_chunks`
is false, an answer paired with the retrieved chunk texts when it is true. -/
abbrev RagValue := Sum String (String × List String)

/-- The per-path return expression of `query_rag`:
`(x, chunkTexts) if return_chunks else x`. -/
def ret (return_chunks : Bool) (x : String) (chunkTexts : List String) : RagValue :=
  if return_chunks then Sum.inr (x, chunkTexts) else Sum.inl x

/-- The answer string carried by a `query_rag` return value. -/
def answerOf : RagValue → String
  | Sum.inl a => a
  | Sum.inr (a, _) => a

/-- The retrieved chunk texts carried by a `query_rag` return value (empty
when only the answer was returned). -/
def chunksOf : RagValue → List String
  | Sum.inl _ => []
  | Sum.inr (_, l) => l

/-- The retrieval try-block of `query_rag` after the search call returned row
indices: filter and index the chunk store, read each retrieved record under
the key `chunk`, and join the texts with blank lines; `none` models any
exception inside the block (IndexError or KeyError). -/
def retrieveStage (chunks : List Record) (I : List Int) :
    Option (List String × String) := do
  let retrieved ← retrieveRows chunks I
  let texts ← retrieved.mapM (fun c => pyDictGet c "chunk")
  some (texts, pyJoin "\n\n" texts)

/-- The grounded prompt built by `query_rag`. -/
def buildPrompt (context user_question : String) : String :=
  "You are a helpful assistant for Bank of Maharashtra loan queries.\n" ++
  "Answer the following question using only the provided context. " ++
  "If the answer is long, present it in a pointwise or bullet format for clarity. " ++
  "If the answer is not in the context, say you don" ++ apos ++ "t know.\n\n" ++
  "Context:\n" ++ context ++ "\n\n" ++
  "Question: " ++ user_question ++ "\n" ++
  "Answer:"

/-- The fixed greeting response of `query_rag`. -/
def greetingResponse : String :=
  "Hello! How can I assist you with your Bank of Maharashtra loan queries today?"

/-- The fixed no-context response of `query_rag`. -/
def noContextResponse : String :=
  "Sorry, I couldn" ++ apos ++ "t find relevant information for your question."

/-- `query_rag` from src/rag_pipeline/rag_engine.py, over the external-call
outcomes of a `RagEnv`; returns the value handed to the caller together with
the trace of external calls attempted. Every fallible external call is
wrapped in a try/except in the source, transcribed here as a match on its
`Option` outcome; a raised exception can therefore never escape this
function, which total-function modelling makes structural. -/
def query_rag (env : RagEnv) (user_question : String) (top_k : Nat)
    (return_chunks : Bool) : RagValue × List Call :=
  let q := sanitize_user_input user_question
  if q = "" then
    (ret return_chunks "Please enter a valid question." [], [])
  else if is_greeting q then
    (ret return_chunks greetingResponse [], [])
  else
    match env.load with
    | none =>
      (ret return_chunks "System error: Unable to load knowledge base." [],
       [Call.load])
    | some chunks =>
      match env.embed q with
      | none =>
        (ret return_chunks "System error: Unable to process your question." [],
         [Call.load, Call.embed])
      | some _ =>
        match env.searchRows top_k with
        | none =>
          (ret return_chunks "System error: Unable to retrieve relevant information." [],
           [Call.load, Call.embed, Call.search])
        | some I =>
          match retrieveStage chunks I with
          | none =>
            (ret return_chunks "System error: Unable to retrieve relevant information." [],
             [Call.load, Call.embed, Call.search])
          | some (texts, context) =>
            if pyStrip context = "" then
              (ret return_chunks noContextResponse [],
               [Call.load, Call.embed, Call.search])
            else
              match env.generate (buildPrompt context q) with
              | none =>
                (ret return_chunks "System error: Unable to generate an answer at this time." [],
                 [Call.load, Call.embed, Call.search, Call.generate])
              | some raw =>
                let answer := format_answer_user_friendly raw
                (if return_chunks then Sum.inr (answer, texts) else Sum.inl answer,
                 [Call.load, Call.embed, Call.search, Call.generate, Call.audit])

/-- The terminal paths of one `query_rag` call. -/
inductive RagPath
  | emptyQuestion
  | greeting
  | loadFail
  | embedFail
  | searchFail
  | noContext
  | generateFail
  | success
deriving DecidableEq

/-- Which terminal path `query_rag` takes for given outcomes and question
(it does not depend on `return_chunks`). -/
def ragPath (env : RagEnv) (user_question : String) (top_k : Nat) : RagPath :=
  let q := sanitize_user_input user_question
  if q = "" then .emptyQuestion
  else if is_greeting q then .greeting
  else
    match env.load with
    | none => .loadFail
    | some chunks =>
      match env.embed q with
      | none => .embedFail
      | some _ =>
        match env.searchRows top_k with
        | none => .searchFail
        | some I =>
          match retrieveStage chunks I with
          | none => .searchFail
          | some (_, context) =>
            if pyStrip context = "" then .noContext
            else
              match env.generate (buildPrompt context q) with
              | none => .generateFail
              | some _ => .success

/-- An environment in which every external collaborator fails. -/
def envAllFail : RagEnv :=
  ⟨none, fun _ => none, fun _ => none, fun _ => none, false⟩

/-- Concrete corpus used to exercise the build pipeline. -/
def docsW : List Doc := [⟨"A.txt", "hello"⟩, ⟨"B.txt", "xy"⟩]

/-- Concrete splitter (one chunk per document) for the build pipeline. -/
def splitW : String → List String := fun t => [t]

/-- Concrete embedding service (vector of the text length) for the build
pipeline. -/
def embW : String → Option (List ℚ) := fun t => some [(t.length : ℚ)]

/-- Concrete stored vectors used to exercise the search model. -/
def rowsW : List (List ℚ) := [[1], [0], [1]]

/-- Concrete query vector used to exercise the search model. -/
def qW : List ℚ := [0]

/-- The artifacts the concrete build of `docsW` produces with `splitW` and
`embW`. -/
def artsW : BuildArtifacts := ⟨[[5], [2]], chunk_docs splitW docsW⟩

/-- Helper: an if-then-else on `length ≤ 1` agrees with the corresponding
three-way match on the list. -/
theorem ite_length_le_one_eq_match (t : String) (L : List String) :
    (if L.length ≤ 1 then t else bulletList L) =
      (match L with
       | [] => t
       | [_] => t
       | lines => bulletList lines) := by
  match L with
  | [] => simp
  | [x] => simp
  | x :: y :: rest => simp [List.length_cons]

/-- Claim C1 (code-bug evidence): with a two-record chunk store and the
search returning the row list [0, 1, -1] (the padding FAISS emits when the
index holds fewer rows than requested), the retrieval comprehension of
`query_rag` keeps the out-of-range index -1 — its guard only tests
`i < len(chunks)` — and Python indexing resolves it to the last record, so
the last chunk contributes twice; the rule the claim states would keep only
the two in-range rows. -/
theorem retrieval_keeps_negative_row_index :
    retrieveRows ["c0", "c1"] [0, 1, -1] = some ["c0", "c1", "c1"] ∧
    specRetrieve ["c0", "c1"] [0, 1, -1] = ["c0", "c1"] := by
  decide

/-- Claim C4 (counterexample): a build in which the index write succeeds and
the chunk-store write fails leaves a lone updated index (here with 5 rows)
and no matching store — the persisted pair is exactly the mismatched state
the claim says cannot survive. -/
theorem persist_partial_failure_mismatch :
    (persistArtifacts true false 5 5 ⟨none, none⟩).1.indexFile = some 5 ∧
    (persistArtifacts true false 5 5 ⟨none, none⟩).1.storeFile = none ∧
    (persistArtifacts true false 5 5 ⟨none, none⟩).2 = false := by
  decide

/-- Claim C4 (amended): the Index Builder persists the two artifacts
sequentially and not atomically — a failed index write leaves both files
untouched, a failed chunk-store write after a successful index write leaves
the updated index in place without its matching store, and only when both
writes succeed do both files hold the new artifacts. -/
theorem persist_sequential_behavior :
    ∀ (storeOk : Bool) (n m : Nat) (fs : FS),
      persistArtifacts false storeOk n m fs = (fs, false) ∧
      persistArtifacts true false n m fs = (⟨some n, fs.storeFile⟩, false) ∧
      persistArtifacts true true n m fs = (⟨some n, some m⟩, true) := by
  intro storeOk n m fs
  refine ⟨by simp [persistArtifacts], by simp [persistArtifacts], by simp [persistArtifacts]⟩

/-- Claim C6 (counterexample): a 26-character answer made of four
exclamation-terminated sentences contains four sentence-ending punctuation
marks, so the claimed policy reformats it into a bulleted list, but the code
counts only periods (zero here) and returns it unchanged. -/
theorem format_period_only_counterexample :
    format_answer_user_friendly "Wow! Amazing! Great! Nice!" =
      "Wow! Amazing! Great! Nice!" ∧
    format_policy_claimed "Wow! Amazing! Great! Nice!" =
      "Here are the key points:\nâ€¢ Wow!\nâ€¢ Amazing!\nâ€¢ Great!\nâ€¢ Nice!" ∧
    ("Wow! Amazing! Great! Nice!" : String) ≠
      "Here are the key points:\nâ€¢ Wow!\nâ€¢ Amazing!\nâ€¢ Great!\nâ€¢ Nice!" := by
  refine ⟨by decide, by decide, by decide⟩

/-- Claim C6 (amended): the Answer Formatter equals the claimed policy once
the early-return condition counts only period characters (not all
sentence-ending punctuation): trimmed answers under 200 characters with
fewer than 3 periods return unchanged; otherwise the text splits into lines
(on line breaks if present, else into sentences), empty lines drop, a split
of at most one line returns the trimmed text, and any other split yields the
header plus one bullet per line in order with leading enumerations
stripped; in particular 5 short period-terminated sentences with no line
breaks become the header plus 5 bullets in order. -/
theorem format_answer_matches_amended_policy :
    (∀ s, format_answer_user_friendly s = format_policy_amended s) ∧
    format_answer_user_friendly
        "It is fast. It is safe. It is cheap. It is easy. It is near." =
      "Here are the key points:\nâ€¢ It is fast.\nâ€¢ It is safe.\nâ€¢ It is cheap.\nâ€¢ It is easy.\nâ€¢ It is near." := by
  constructor
  · intro s
    by_cases h : (pyStrip s).length < 200 ∧ countChar '.' (pyStrip s) < 3
    · simp only [format_answer_user_friendly, format_policy_amended, if_pos h]
    · simp only [format_answer_user_friendly, format_policy_amended,
        splitIntoLines, if_neg h]
      exact ite_length_le_one_eq_match (pyStrip s) _
  · decide

/-- Helper: looking up `filename` in a chunk record yields the filename it
was built from. -/
theorem pyDictGet_chunkRecord_filename (f c : String) (i : Nat) :
    pyDictGet (chunkRecord f c i) "filename" = some f := by
  rfl

/-- Helper: every record produced by `chunk_docs` carries the filename of
one of the input documents. -/
theorem mem_chunk_docs_filename (st : String → List String) (ds : List Doc)
    (r : Record) (hr : r ∈ chunk_docs st ds) :
    ∃ d, d ∈ ds ∧ pyDictGet r "filename" = some d.filename := by
  unfold chunk_docs at hr
  rw [List.mem_flatten] at hr
  obtain ⟨block, hb, hrb⟩ := hr
  rw [List.mem_map] at hb
  obtain ⟨d, hd, rfl⟩ := hb
  rw [List.mem_map] at hrb
  obtain ⟨p, _, rfl⟩ := hrb
  exact ⟨d, hd, pyDictGet_chunkRecord_filename _ _ _⟩

/-- Claim C7 (counterexample): a chunk record built for position 0 of file
A.txt — the first record `chunk_docs` emits for a concrete corpus — has no
`position` field and no `text` field; its text sits under the key `chunk`. -/
theorem chunk_record_fields_counterexample :
    pyDictGet (chunkRecord "A.txt" "hello" 0) "position" = none ∧
    pyDictGet (chunkRecord "A.txt" "hello" 0) "text" = none ∧
    pyDictGet (chunkRecord "A.txt" "hello" 0) "chunk" = some "hello" ∧
    pyDictGet (chunkRecord "A.txt" "hello" 0) "chunk_id" = some "A.txt_chunk_0" ∧
    (chunk_docs splitW docsW).get? 0 = some (chunkRecord "A.txt" "hello" 0) := by
  refine ⟨rfl, rfl, rfl, rfl, rfl⟩

/-- Claim C7 (amended): every chunk record holds its text under the key
`chunk` together with `filename` and `chunk_id`, where `chunk_id` is
deterministically `<filename>_chunk_<position>` with the 0-based position of
the chunk in its document; for a corpus with distinct filenames, the records
of each document appear in position order 0, 1, 2, ... (no stored `position`
field exists, the position lives only inside `chunk_id`). -/
theorem chunk_store_per_document_records :
    ∀ (splitText : String → List String) (docs : List Doc),
      (docs.map Doc.filename).Nodup →
      ∀ doc, doc ∈ docs →
        (chunk_docs splitText docs).filter
            (fun r => pyDictGet r "filename" == some doc.filename) =
          (splitText doc.text).enum.map
            (fun p => chunkRecord doc.filename p.2 p.1) := by
  intro st docs
  induction docs with
  | nil =>
    intro _ doc hd
    exact absurd hd (List.not_mem_nil doc)
  | cons d ds ih =>
    intro hnd doc hd
    rw [List.map_cons, List.nodup_cons] at hnd
    obtain ⟨hdf, hnd'⟩ := hnd
    have hsplit : chunk_docs st (d :: ds) =
        ((st d.text).enum.map (fun p => chunkRecord d.filename p.2 p.1)) ++
          chunk_docs st ds := rfl
    rw [hsplit, List.filter_append]
    rcases List.mem_cons.mp hd with rfl | hd'
    · have h1 : ((st doc.text).enum.map
          (fun p => chunkRecord doc.filename p.2 p.1)).filter
            (fun r => pyDictGet r "filename" == some doc.filename) =
          (st doc.text).enum.map (fun p => chunkRecord doc.filename p.2 p.1) := by
        apply List.filter_eq_self.mpr
        intro r hr
        rw [List.mem_map] at hr
        obtain ⟨p, _, rfl⟩ := hr
        rw [pyDictGet_chunkRecord_filename]
        exact beq_self_eq_true _
      have h2 : (chunk_docs st ds).filter
          (fun r => pyDictGet r "filename" == some doc.filename) = [] := by
        apply List.filter_eq_nil_iff.mpr
        intro r hr
        obtain ⟨d', hd', hfn⟩ := mem_chunk_docs_filename st ds r hr
        rw [hfn]
        simp only [beq_iff_eq, Option.some.injEq]
        intro heq
        exact hdf (heq ▸ List.mem_map_of_mem Doc.filename hd')
      rw [h1, h2, List.append_nil]
    · have h1 : ((st d.text).enum.map
          (fun p => chunkRecord d.filename p.2 p.1)).filter
            (fun r => pyDictGet r "filename" == some doc.filename) = [] := by
        apply List.filter_eq_nil_iff.mpr
        intro r hr
        rw [List.mem_map] at hr
        obtain ⟨p, _, rfl⟩ := hr
        rw [pyDictGet_chunkRecord_filename]
        simp only [beq_iff_eq, Option.some.injEq]
        intro heq
        exact hdf (heq ▸ List.mem_map_of_mem Doc.filename hd')
      rw [h1, List.nil_append]
      exact ih hnd' doc hd'

/-- Witness for the amended C7 theorem at a concrete two-file corpus. -/
theorem chunk_store_per_document_records_witness :
    (chunk_docs splitW docsW).filter
        (fun r => pyDictGet r "filename" ==
          some (Doc.filename ⟨"A.txt", "hello"⟩)) =
      (splitW (Doc.text ⟨"A.txt", "hello"⟩)).enum.map
        (fun p => chunkRecord (Doc.filename ⟨"A.txt", "hello"⟩) p.2 p.1) :=
  chunk_store_per_document_records splitW docsW (by decide)
    ⟨"A.txt", "hello"⟩ (by decide)

/-- Helper: a successful `Option`-valued `mapM` returns a list of the same
length whose i-th entry is the successful image of the i-th input. -/
theorem mapM_option_spec {α β : Type} (f : α → Option β) :
    ∀ (l : List α) (r : List β), l.mapM f = some r →
      r.length = l.length ∧
      ∀ i a, l.get? i = some a → ∃ b, f a = some b ∧ r.get? i = some b := by
  intro l
  induction l with
  | nil =>
    intro r h
    rw [List.mapM_nil] at h
    cases h
    exact ⟨rfl, by intro i a ha; cases i <;> cases ha⟩
  | cons x xs ih =>
    intro r h
    rw [List.mapM_cons] at h
    cases hfx : f x with
    | none => rw [hfx] at h; cases h
    | some b =>
      rw [hfx] at h
      cases hxs : xs.mapM f with
      | none => rw [hxs] at h; cases h
      | some rs =>
        rw [hxs] at h
        simp only [Option.some_bind, Option.pure_def, Option.bind_eq_bind,
          Option.some.injEq] at h
        obtain ⟨hlen, hidx⟩ := ih rs hxs
        subst h
        constructor
        · simp [hlen]
        · intro i a ha
          cases i with
          | zero =>
            cases ha
            exact ⟨b, hfx, rfl⟩
          | succ j =>
            exact hidx j a ha

/-- Claim C3: after every successful build, the persisted vector index and
chunk store have equal length, the store is exactly the chunk list in
chunking order, and row i of the index is the embedding of the text stored
under `chunk` in record i (vectors and records aligned row by row). -/
theorem build_parallel_arrays :
    ∀ (st : String → List String) (emb : String → Option (List ℚ))
      (docs : List Doc) (arts : BuildArtifacts),
      buildArtifacts st emb docs = some arts →
        arts.indexVectors.length = arts.docstore.length ∧
        arts.docstore = chunk_docs st docs ∧
        ∀ i r, arts.docstore.get? i = some r →
          ∃ t v, pyDictGet r "chunk" = some t ∧ emb t = some v ∧
            arts.indexVectors.get? i = some v := by
  intro st emb docs arts h
  unfold buildArtifacts at h
  cases hec : embed_chunks emb (chunk_docs st docs) with
  | none => rw [hec] at h; cases h
  | some embs =>
    rw [hec] at h
    simp only [Option.map_some', Option.some.injEq] at h
    subst h
    obtain ⟨hlen, hidx⟩ := mapM_option_spec _ _ _ hec
    refine ⟨hlen, rfl, ?_⟩
    intro i r hr
    obtain ⟨v, hv, hvi⟩ := hidx i r hr
    cases ht : pyDictGet r "chunk" with
    | none => rw [ht] at hv; cases hv
    | some t =>
      rw [ht] at hv
      exact ⟨t, v, rfl, hv, hvi⟩

/-- Witness for the C3 theorem at a concrete two-file corpus (one chunk per
file, embeddings of dimension one). -/
theorem build_parallel_arrays_witness :
    buildArtifacts splitW embW docsW = some artsW ∧
    artsW.indexVectors.length = artsW.docstore.length :=
  ⟨by decide, (build_parallel_arrays splitW embW docsW artsW (by decide)).1⟩

/-- Helper: the ranked pair list has one entry per stored row. -/
theorem distPairs_length (rows : List (List ℚ)) (q : List ℚ) :
    (distPairs rows q).length = rows.length := by
  simp [distPairs]

/-- Helper: the row indices of the ranked pair list are pairwise distinct. -/
theorem distPairs_fst_nodup (rows : List (List ℚ)) (q : List ℚ) :
    ((distPairs rows q).map Prod.fst).Nodup := by
  have h1 : (distPairs rows q).map Prod.fst = rows.enum.map Prod.fst := by
    simp only [distPairs, List.map_map]
    rfl
  rw [h1]
  exact List.nodup_enum_map_fst rows

/-- Claim C2: `search` returns `min k n` results (hence at most `k`, and all
`n` rows when `n < k`); the results are strictly ordered by ascending
squared distance with ties broken by the lower row index; every result pair
is a stored row index with its exact squared distance to the query; and when
the index holds at most `k` rows the result is a permutation of the full
ranked row list (all rows, no others). -/
theorem search_contract :
    ∀ (rows : List (List ℚ)) (q : List ℚ) (k : Nat),
      (search rows q k).length = min k rows.length ∧
      (search rows q k).Pairwise
        (fun a b => a.2 < b.2 ∨ (a.2 = b.2 ∧ a.1 < b.1)) ∧
      (∀ p, p ∈ search rows q k →
        ∃ r, rows.get? p.1 = some r ∧ p.2 = sqDist q r) ∧
      (rows.length ≤ k → List.Perm (search rows q k) (distPairs rows q)) := by
  intro rows q k
  have hperm : List.Perm (List.insertionSort searchLE (distPairs rows q))
      (distPairs rows q) :=
    List.perm_insertionSort _ _
  have hlen : (List.insertionSort searchLE (distPairs rows q)).length = rows.length :=
    hperm.length_eq.trans (distPairs_length rows q)
  refine ⟨?_, ?_, ?_, ?_⟩
  · rw [search, List.length_take, hlen]
  · have hs : List.Sorted searchLE (List.insertionSort searchLE (distPairs rows q)) :=
      List.sorted_insertionSort searchLE (distPairs rows q)
    have hnd : ((List.insertionSort searchLE (distPairs rows q)).map Prod.fst).Nodup :=
      ((hperm.map Prod.fst).nodup_iff).mpr (distPairs_fst_nodup rows q)
    have hne : (List.insertionSort searchLE (distPairs rows q)).Pairwise
        (fun a b => a.1 ≠ b.1) := List.pairwise_map.mp hnd
    have hstrict : (List.insertionSort searchLE (distPairs rows q)).Pairwise
        (fun a b => a.2 < b.2 ∨ (a.2 = b.2 ∧ a.1 < b.1)) := by
      refine (hs.and hne).imp ?_
      rintro a b ⟨hle, hab⟩
      rcases hle with h | ⟨heq, hle⟩
      · exact Or.inl h
      · exact Or.inr ⟨heq, lt_of_le_of_ne hle hab⟩
    exact hstrict.sublist (List.take_sublist _ _)
  · intro p hp
    have hp1 : p ∈ List.insertionSort searchLE (distPairs rows q) :=
      (List.take_sublist _ _).subset hp
    have hp2 : p ∈ distPairs rows q := hperm.subset hp1
    rw [distPairs, List.mem_map] at hp2
    obtain ⟨pr, hpr, rfl⟩ := hp2
    rw [List.mem_enum_iff_getElem?] at hpr
    exact ⟨pr.2, by rw [List.get?_eq_getElem?]; exact hpr, rfl⟩
  · intro hk
    rw [search, List.take_of_length_le (hlen ▸ hk)]
    exact hperm

/-- Witness for the C2 theorem: a three-row index queried with k larger than
the row count returns a permutation of all three ranked rows. -/
theorem search_contract_witness :
    List.Perm (search rowsW qW 5) (distPairs rowsW qW) :=
  (search_contract rowsW qW 5).2.2.2 (by decide)

/-- Claim C8: an empty-after-trimming question short-circuits to the exact
fixed response with zero retrieved chunks and an empty external-call trace
(no load, embedding, search, generation, or audit attempt). -/
theorem query_rag_empty_question :
    ∀ (env : RagEnv) (q : String) (k : Nat) (rc : Bool),
      pyStrip q = "" →
      query_rag env q k rc = (ret rc "Please enter a valid question." [], []) := by
  intro env q k rc h
  simp [query_rag, sanitize_user_input, h]

/-- Witness for the C8 theorem on a whitespace-only question. -/
theorem query_rag_empty_question_witness :
    query_rag envAllFail "   " 3 true =
      (ret true "Please enter a valid question." [], []) :=
  query_rag_empty_question envAllFail "   " 3 true (by decide)

/-- Claim C9: a question whose sanitized form the greeting test accepts
(case-insensitively equal to a vocabulary entry, or starting with one
followed by a space) short-circuits to the fixed greeting response with zero
retrieved chunks and an empty external-call trace. -/
theorem query_rag_greeting_short_circuit :
    ∀ (env : RagEnv) (q : String) (k : Nat) (rc : Bool),
      is_greeting (pyStrip q) = true →
      query_rag env q k rc = (ret rc greetingResponse [], []) := by
  intro env q k rc h
  have hq : ¬(pyStrip q = "") := by
    intro he
    rw [he] at h
    exact absurd h (by decide)
  simp [query_rag, sanitize_user_input, hq, h]

/-- Witness for the C9 theorem on the input Hello there. -/
theorem query_rag_greeting_short_circuit_witness :
    query_rag envAllFail "Hello there" 3 true =
      (ret true greetingResponse [], []) :=
  query_rag_greeting_short_circuit envAllFail "Hello there" 3 true (by decide)

/-- Claim C5: for a question that passes the empty and greeting gates, a
failure of any external stage is absorbed: the call still returns normally,
with the exact fixed user-facing string of the failed stage (load, embed,
search or retrieval mapping, generate) and no retrieved chunks. -/
theorem query_rag_absorbs_stage_failures :
    ∀ (env : RagEnv) (q : String) (k : Nat) (rc : Bool),
      (pyStrip q ≠ "" → is_greeting (pyStrip q) = false → env.load = none →
        query_rag env q k rc =
          (ret rc "System error: Unable to load knowledge base." [],
           [Call.load])) ∧
      (∀ chunks, pyStrip q ≠ "" → is_greeting (pyStrip q) = false →
        env.load = some chunks → env.embed (pyStrip q) = none →
        query_rag env q k rc =
          (ret rc "System error: Unable to process your question." [],
           [Call.load, Call.embed])) ∧
      (∀ chunks, pyStrip q ≠ "" → is_greeting (pyStrip q) = false →
        env.load = some chunks → env.embed (pyStrip q) ≠ none →
        env.searchRows k = none →
        query_rag env q k rc =
          (ret rc "System error: Unable to retrieve relevant information." [],
           [Call.load, Call.embed, Call.search])) ∧
      (∀ chunks I, pyStrip q ≠ "" → is_greeting (pyStrip q) = false →
        env.load = some chunks → env.embed (pyStrip q) ≠ none →
        env.searchRows k = some I → retrieveStage chunks I = none →
        query_rag env q k rc =
          (ret rc "System error: Unable to retrieve relevant information." [],
           [Call.load, Call.embed, Call.search])) ∧
      (∀ chunks I texts context, pyStrip q ≠ "" →
        is_greeting (pyStrip q) = false →
        env.load = some chunks → env.embed (pyStrip q) ≠ none →
        env.searchRows k = some I →
        retrieveStage chunks I = some (texts, context) →
        pyStrip context ≠ "" →
        env.generate (buildPrompt context (pyStrip q)) = none →
        query_rag env q k rc =
          (ret rc "System error: Unable to generate an answer at this time." [],
           [Call.load, Call.embed, Call.search, Call.generate])) := by
  intro env q k rc
  refine ⟨?_, ?_, ?_, ?_, ?_⟩
  · intro hq hg hload
    simp [query_rag, sanitize_user_input, hq, hg, hload]
  · intro chunks hq hg hload hemb
    simp [query_rag, sanitize_user_input, hq, hg, hload, hemb]
  · intro chunks hq hg hload hemb hsr
    cases he : env.embed (pyStrip q) with
    | none => exact absurd he hemb
    | some u =>
      simp [query_rag, sanitize_user_input, hq, hg, hload, he, hsr]
  · intro chunks I hq hg hload hemb hsr hst
    cases he : env.embed (pyStrip q) with
    | none => exact absurd he hemb
    | some u =>
      simp [query_rag, sanitize_user_input, hq, hg, hload, he, hsr, hst]
  · intro chunks I texts context hq hg hload hemb hsr hst hctx hgen
    cases he : env.embed (pyStrip q) with
    | none => exact absurd he hemb
    | some u =>
      simp [query_rag, sanitize_user_input, hq, hg, hload, he, hsr, hst,
        hctx, hgen]

/-- Witness for the C5 theorem: a knowledge-base load failure yields exactly
the load-stage system-error string. -/
theorem query_rag_absorbs_stage_failures_witness :
    query_rag envAllFail "What is the interest rate" 3 false =
      (ret false "System error: Unable to load knowledge base." [],
       [Call.load]) :=
  (query_rag_absorbs_stage_failures envAllFail "What is the interest rate"
    3 false).1 (by decide) (by decide) rfl

/-- Claim C10: the shape of the value `query_rag` returns is fixed by the
`return_chunks` flag — a bare string when the flag is false (as the API
layer calls it), an answer paired with the retrieved chunk texts when true —
and that list is empty on every short-circuit and error path, so it can be
non-empty only on the successful answer path. -/
theorem query_rag_return_shape :
    ∀ (env : RagEnv) (q : String) (k : Nat),
      (query_rag env q k false).1.isLeft = true ∧
      (query_rag env q k true).1.isRight = true ∧
      (ragPath env q k ≠ RagPath.success →
        chunksOf (query_rag env q k true).1 = []) := by
  intro env q k
  by_cases hq : sanitize_user_input q = ""
  · simp [query_rag, ragPath, hq, ret, chunksOf]
  · by_cases hg : is_greeting (sanitize_user_input q) = true
    · simp [query_rag, ragPath, hq, hg, ret, chunksOf]
    · cases hload : env.load with
      | none => simp [query_rag, ragPath, hq, hg, hload, ret, chunksOf]
      | some chunks =>
        cases hemb : env.embed (sanitize_user_input q) with
        | none => simp [query_rag, ragPath, hq, hg, hload, hemb, ret, chunksOf]
        | some u =>
          cases hsr : env.searchRows k with
          | none =>
            simp [query_rag, ragPath, hq, hg, hload, hemb, hsr, ret, chunksOf]
          | some I =>
            cases hst : retrieveStage chunks I with
            | none =>
              simp [query_rag, ragPath, hq, hg, hload, hemb, hsr, hst, ret,
                chunksOf]
            | some tc =>
              obtain ⟨texts, context⟩ := tc
              by_cases hctx : pyStrip context = ""
              · simp [query_rag, ragPath, hq, hg, hload, hemb, hsr, hst, hctx,
                  ret, chunksOf]
              · cases hgen : env.generate
                    (buildPrompt context (sanitize_user_input q)) with
                | none =>
                  simp [query_rag, ragPath, hq, hg, hload, hemb, hsr, hst,
                    hctx, hgen, ret, chunksOf]
                | some raw =>
                  simp [query_rag, ragPath, hq, hg, hload, hemb, hsr, hst,
                    hctx, hgen, ret, chunksOf]

/-- Witness for the C10 theorem: on a failing load path with chunks
requested, the retrieved-chunk list is empty. -/
theorem query_rag_return_shape_witness :
    chunksOf (query_rag envAllFail "loan" 3 true).1 = [] :=
  (query_rag_return_shape envAllFail "loan" 3).2.2 (by decide)
